import Mathlib

/-!
Verification development for the `bil` repository.

The repository ships two generations of the same services side by side:
a legacy generation (`Database/Database.js`, `Services/*.js`) and a
refactored generation (`src/Core/*.js`).  The definitions below are a
shallow embedding of the code paths the claims refer to:

* `Database.query` / `processQueue` / `executeQuery` (storage gateway);
* `AdsFinder.handleChannelMessage` / `checkForwardedMessage` (detection
  engine, legacy generation; the refactored row-matching loop is embedded
  separately as `rowMatch_v2`);
* `ViewUpdater.performUpdate` / `processRow` / `getDialogs` together with
  `TelegramManager.getDialogIds` (reconciliation engine).

JavaScript runtime behaviour that the code relies on is made explicit:
truthiness of strings/numbers (`jsStrTruthy`, `jsIntTruthy`), the
short-circuiting `||` operator on possibly-null columns (`jsOrStr`,
`jsOrInt`), `String(null)` (`toJsString`), loose `==` against a possibly
null number (`intEqJs`), `Map` get/set semantics on string keys
(`jsMapGet`, `jsMapSet`), and `JSON.parse` restricted to arrays of
integers (`jsonParseIntList`; any other input is treated exactly like the
source treats it: the row never matches and evaluation continues).

External I/O (the MySQL pool, the Telegram client) is passed in as
explicit oracle arguments, and the side effects a function performs are
returned as an explicit effect list, so that "no database query happened"
is the checkable statement "the effect list has no query element".
-/

/-- JavaScript truthiness of a possibly-null string column: `null`,
`undefined` and the empty string are falsy. -/
def jsStrTruthy : Option String → Bool
  | none => false
  | some s => s ≠ ""

/-- JavaScript truthiness of a possibly-null numeric column: `null`,
`undefined` and `0` are falsy. -/
def jsIntTruthy : Option Int → Bool
  | none => false
  | some n => n ≠ 0

/-- JavaScript `a || b` on possibly-null string columns: yields `a` when
`a` is truthy, otherwise `b` (even when `b` is itself falsy). -/
def jsOrStr (a b : Option String) : Option String :=
  if jsStrTruthy a then a else b

/-- JavaScript `a || b` on possibly-null numeric columns. -/
def jsOrInt (a b : Option Int) : Option Int :=
  if jsIntTruthy a then a else b

/-- JavaScript `String(x)` on a possibly-null value (`String(null)` is
the literal text `"null"`). -/
def toJsString : Option String → String
  | none => "null"
  | some s => s

/-- JavaScript loose equality `n == m` where `n` is a number and `m` a
possibly-null number: `n == null` is false. -/
def intEqJs (n : Int) : Option Int → Bool
  | none => false
  | some m => n == m

/-- Does the character list start with the given pattern?  (Character
level so that every definition in this file evaluates by reduction.) -/
def charsStartWith : List Char → List Char → Bool
  | _, [] => true
  | [], _ :: _ => false
  | c :: cs, p :: ps => c == p && charsStartWith cs ps

/-- `AdsFinder.cleanChannelId` (both generations): strip a leading
`-100` transport prefix, otherwise return the id unchanged. -/
def cleanChannelId (channelId : String) : String :=
  if charsStartWith channelId.data ("-100".data) then String.mk (channelId.data.drop 4)
  else channelId

/-- ASCII whitespace, as trimmed around JSON tokens. -/
def isSpaceChar (c : Char) : Bool :=
  c == ' ' || c == '\t' || c == '\n' || c == '\r'

/-- Trim whitespace from both ends of a character list. -/
def trimChars (cs : List Char) : List Char :=
  ((cs.dropWhile isSpaceChar).reverse.dropWhile isSpaceChar).reverse

/-- Split a character list on commas (JSON array element separator). -/
def splitChars : List Char → List (List Char)
  | [] => [[]]
  | c :: rest =>
    match splitChars rest with
    | [] => [[]]
    | g :: gs => if c == ',' then [] :: g :: gs else (c :: g) :: gs

/-- Digit run to its numeric value. -/
def digitsToNat (cs : List Char) : Nat :=
  cs.foldl (fun acc c => acc * 10 + (c.toNat - 48)) 0

/-- One integer token of a JSON array: optional leading `-`, then
decimal digits, surrounding whitespace allowed. -/
def parseIntToken (cs : List Char) : Option Int :=
  let t := trimChars cs
  let p := match t with
    | '-' :: rest => (true, rest)
    | _ => (false, t)
  if p.2.length > 0 && p.2.all Char.isDigit then
    some (if p.1 then -(digitsToNat p.2 : Int) else (digitsToNat p.2 : Int))
  else none

/-- `JSON.parse` as used on the `editedMessageIds` column: the stored
value is expected to be a JSON array of integers.  `some ids` models a
successful parse to an array; `none` models both a `JSON.parse` throw
and a parse to a non-array value — in the source both cases leave
`isMatch` false for that row and the candidate loop continues. -/
def jsonParseIntList (s : String) : Option (List Int) :=
  match trimChars s.data with
  | '[' :: rest =>
    match rest.reverse with
    | ']' :: midRev =>
      let inner := midRev.reverse
      if (trimChars inner).isEmpty then some []
      else
        let vals := (splitChars inner).map parseIntToken
        if vals.all Option.isSome then some vals.reduceOption else none
    | _ => none
  | _ => none

/-- JavaScript `Map.get` on a string-keyed map embedded as an
insertion-ordered association list. -/
def jsMapGet {α : Type} (m : List (String × α)) (k : String) : Option α :=
  (m.find? (fun kv => kv.1 == k)).map (·.2)

/-- JavaScript `Map.set`: replace in place when the key exists (keeping
its insertion position), otherwise append. -/
def jsMapSet {α : Type} (m : List (String × α)) (k : String) (v : α) : List (String × α) :=
  if (m.find? (fun kv => kv.1 == k)).isSome then
    m.map (fun kv => if kv.1 == k then (k, v) else kv)
  else m ++ [(k, v)]

/-- The `channelInfo` record `handleChannelMessage` builds for a
forwarded post and passes to `checkForwardedMessage`: observed hosting
channel and message plus the forward-origin pair (already passed
through `cleanChannelId`). -/
structure ForwardInfo where
  channelId : String
  messageId : Int
  date : Int
  views : Int
  forwards : Int
  fromChannelId : String
  fromMessageId : Int
deriving Repr, DecidableEq

/-- One candidate row of the legacy placement query
(`Services/observer.js` generation, aliases as in the SQL of
`checkForwardedMessage`, lines 352-371): `contents.channelId`,
`contents.messageId`, `contents.forwardFromChannelId`,
`contents.forwardFromMessageId`, `pushList.editedChannelId`,
`pushList.editedMessageIds` (raw JSON text), `campaigns.name`. -/
structure PushRow where
  pushId : Int
  notForwardedChannelId : Option String
  notForwardedMessageId : Option Int
  baseContentChannelId : Option String
  baseContentMessageId : Option Int
  editedContentChannelId : Option String
  editedContentMessageIds : Option String
  campaignName : Option String
deriving Repr, DecidableEq

/-- Row matching of the legacy `checkForwardedMessage` loop
(`src/src/Core/AdsFinder.js:381-427`): the searched channel id is
`editedContentChannelId || baseContentChannelId || notForwardedChannelId`;
when `editedContentMessageIds` is truthy it is parsed and the row matches
when the forward origin equals the searched channel and the origin
message id is one of the edited ids; otherwise the row matches on the
searched channel together with `baseContentMessageId || notForwardedMessageId`. -/
def rowMatch_v1 (fwd : ForwardInfo) (row : PushRow) : Bool :=
  let searchingChannelId :=
    jsOrStr row.editedContentChannelId
      (jsOrStr row.baseContentChannelId row.notForwardedChannelId)
  if jsStrTruthy row.editedContentMessageIds then
    match jsonParseIntList (row.editedContentMessageIds.getD "") with
    | some messageIds =>
        messageIds.any (fun messageId =>
          fwd.fromChannelId == cleanChannelId (toJsString searchingChannelId) &&
          fwd.fromMessageId == messageId)
    | none => false
  else
    let searchingMessageId := jsOrInt row.baseContentMessageId row.notForwardedMessageId
    fwd.fromChannelId == cleanChannelId (toJsString searchingChannelId) &&
      intEqJs fwd.fromMessageId searchingMessageId

/-- One candidate row of the refactored placement query
(`src/src/Core/AdsFinder.js:983-999`): the SQL selects
`con.channelId`, `con.messageId`, `con.forwardFromChannelId`,
`con.forwardFromMessageId`, `p.editedChannelId`, `p.editedMessageIds`.
Note that no column is aliased `editedContentChannelId`. -/
structure PushRow2 where
  pushId : Int
  campaignName : Option String
  channelId : Option String
  messageId : Option Int
  forwardFromChannelId : Option String
  forwardFromMessageId : Option Int
  editedChannelId : Option String
  editedMessageIds : Option String
deriving Repr, DecidableEq

/-- Row matching of the refactored `checkForwardedMessage` loop
(`src/src/Core/AdsFinder.js:1011-1043`).  The loop reads
`row.editedContentChannelId`, which its own query never selects, so that
term is always `undefined` (falsy) and the searched channel id reduces to
`forwardFromChannelId || channelId`.  In the edited branch the match is
`messageIds.includes(fromMessageId)` alone: no channel id is compared. -/
def rowMatch_v2 (fwd : ForwardInfo) (row : PushRow2) : Bool :=
  let searchingChannelId := jsOrStr row.forwardFromChannelId row.channelId
  if jsStrTruthy row.editedMessageIds then
    match jsonParseIntList (row.editedMessageIds.getD "") with
    | some messageIds => messageIds.contains fwd.fromMessageId
    | none => false
  else
    fwd.fromChannelId == cleanChannelId (toJsString searchingChannelId) &&
      intEqJs fwd.fromMessageId (jsOrInt row.forwardFromMessageId row.messageId)

/-- Modelled from the spec (§4.4, used only to compare against
`rowMatch_v2`): "if the Placement carries an edited-message set ... match
if `originMessageId` is a member and `originChannelId` equals the
edited/forward-origin channel; otherwise match on direct equality of
origin channel+message against the Content's forward-origin (or, lacking
that, the Content's own channel+message)". -/
def specRowMatch_v2 (fwd : ForwardInfo) (row : PushRow2) : Bool :=
  if jsStrTruthy row.editedMessageIds then
    match jsonParseIntList (row.editedMessageIds.getD "") with
    | some messageIds =>
        messageIds.contains fwd.fromMessageId &&
          fwd.fromChannelId ==
            cleanChannelId (toJsString (jsOrStr row.editedChannelId row.forwardFromChannelId))
    | none => false
  else
    fwd.fromChannelId ==
        cleanChannelId (toJsString (jsOrStr row.forwardFromChannelId row.channelId)) &&
      intEqJs fwd.fromMessageId (jsOrInt row.forwardFromMessageId row.messageId)

/-- A `{ result, time }` entry of the `queryCache` map. -/
structure CacheEntry where
  detected : Bool
  pushId : Option Int
  campaignName : Option String
  time : Nat
deriving Repr, DecidableEq

/-- The detection result `checkForwardedMessage` returns (the source also
spreads the `forwardInfo` fields into it; they are not tracked here). -/
structure CheckResult where
  detected : Bool
  pushId : Option Int := none
  campaignName : Option String := none
deriving Repr, DecidableEq

/-- The cache/cleanup slice of the `AdsFinder` instance state. -/
structure FinderState where
  queryCache : List (String × CacheEntry)
  lastCleanupTime : Nat
deriving Repr, DecidableEq

/-- `CACHE_TTL = 5 * 60 * 1000` milliseconds. -/
def CACHE_TTL : Nat := 5 * 60 * 1000

/-- `maxCacheSize = 100` entries. -/
def maxCacheSize : Nat := 100

/-- `cleanupInterval = 30 * 60 * 1000` milliseconds. -/
def cleanupIntervalMs : Nat := 30 * 60 * 1000

/-- Stable ascending insertion by entry time, embedding
`entries.sort((a, b) => a[1].time - b[1].time)`. -/
def insertByTime (e : String × CacheEntry) : List (String × CacheEntry) → List (String × CacheEntry)
  | [] => [e]
  | f :: rest => if e.2.time < f.2.time then e :: f :: rest else f :: insertByTime e rest

/-- Sort cache entries by ascending time (stable). -/
def sortByTime : List (String × CacheEntry) → List (String × CacheEntry)
  | [] => []
  | e :: rest => insertByTime e (sortByTime rest)

/-- `AdsFinder.cleanCache`: drop entries older than the TTL; if the cache
is still above `maxCacheSize`, drop the oldest surplus entries. -/
def cleanCache (cache : List (String × CacheEntry)) (now : Nat) : List (String × CacheEntry) :=
  let kept := cache.filter (fun kv => ¬ (now - kv.2.time > CACHE_TTL))
  if kept.length > maxCacheSize then
    let toRemove := ((sortByTime kept).take (kept.length - maxCacheSize)).map (·.1)
    kept.filter (fun kv => ¬ toRemove.contains kv.1)
  else kept

/-- `AdsFinder.cleanCacheIfNeeded`: periodic sweep (refreshing
`lastCleanupTime`) plus a size-triggered sweep. -/
def cleanCacheIfNeeded (st : FinderState) (now : Nat) : FinderState :=
  let st1 :=
    if now - st.lastCleanupTime > cleanupIntervalMs then
      { queryCache := cleanCache st.queryCache now, lastCleanupTime := now }
    else st
  if st1.queryCache.length > maxCacheSize then
    { st1 with queryCache := cleanCache st1.queryCache now }
  else st1

/-- The cache key `check_${fromChannelId}_${fromMessageId}`. -/
def cacheKeyOf (fwd : ForwardInfo) : String :=
  "check_" ++ fwd.fromChannelId ++ "_" ++ toString fwd.fromMessageId

/-- Externally visible actions of the detection engine. -/
inductive AfEff
  | dbQuery
  | dbInsert (table : String)
  | notify
  | getChannelInfo
deriving Repr, DecidableEq

/-- Cache-miss tail of `checkForwardedMessage`: run the periodic cleanup,
issue the placement query (one `dbQuery` effect, with `dbRows` standing
for its result set), take the first matching candidate row, and cache the
result — negative (`detected:false`) results included. -/
def checkMiss (st : FinderState) (now : Nat) (fwd : ForwardInfo) (dbRows : List PushRow) :
    CheckResult × FinderState × List AfEff :=
  let st1 := cleanCacheIfNeeded st now
  let key := cacheKeyOf fwd
  match dbRows.find? (rowMatch_v1 fwd) with
  | some row =>
      let r : CheckResult :=
        { detected := true, pushId := some row.pushId,
          campaignName := some (toJsString (jsOrStr row.campaignName (some "Unknown"))) }
      (r, { st1 with queryCache :=
              jsMapSet st1.queryCache key ⟨r.detected, r.pushId, r.campaignName, now⟩ },
       [AfEff.dbQuery])
  | none =>
      let r : CheckResult := { detected := false }
      (r, { st1 with queryCache :=
              jsMapSet st1.queryCache key ⟨false, none, none, now⟩ },
       [AfEff.dbQuery])

/-- Legacy `checkForwardedMessage` (`src/src/Core/AdsFinder.js:339-437`):
return a fresh cached result without touching the database; otherwise
fall through to the query-and-match path `checkMiss`.  (The empty result
set and the exhausted candidate loop both produce — and cache — the same
`detected:false`, so they are folded into `find? = none`.) -/
def checkForwardedMessage (st : FinderState) (now : Nat) (fwd : ForwardInfo)
    (dbRows : List PushRow) : CheckResult × FinderState × List AfEff :=
  match jsMapGet st.queryCache (cacheKeyOf fwd) with
  | some e =>
      if now - e.time < CACHE_TTL then
        ({ detected := e.detected, pushId := e.pushId, campaignName := e.campaignName }, st, [])
      else checkMiss st now fwd dbRows
  | none => checkMiss st now fwd dbRows

/-- The forward header of an incoming message (`message.fwdFrom`):
`fromId` collapsed to its channel-id string, `channelPost` the origin
message id. -/
structure FwdHeader where
  fromId : Option String
  channelPost : Option Int
deriving Repr, DecidableEq

/-- An incoming channel message event (`event.message`), with the fields
`handleChannelMessage` reads. -/
structure TgMessage where
  out : Bool
  post : Bool
  peerChannelId : String
  id : Int
  date : Int
  views : Int
  forwards : Int
  fwdFrom : Option FwdHeader
deriving Repr, DecidableEq

/-- The engine state `handleChannelMessage` mutates. -/
structure EngineState where
  processedMessages : List String
  messageCount : Nat
  detectionsCount : Nat
  finder : FinderState
deriving Repr, DecidableEq

/-- `maxProcessedMessages = 10000`. -/
def maxProcessedMessages : Nat := 10000

/-- `AdsFinder.manageProcessedMessagesSize`: when the dedup set reaches
its cap, keep only the most recent half (`entries.slice(-toKeep)` with
`toKeep = floor(maxProcessedMessages * 0.5)`). -/
def manageProcessedMessagesSize (pm : List String) : List String :=
  if pm.length ≥ maxProcessedMessages then
    pm.drop (pm.length - maxProcessedMessages / 2)
  else pm

/-- The dedup key `${channelId}_${message.id}`. -/
def messageKeyOf (m : TgMessage) : String :=
  m.peerChannelId ++ "_" ++ toString m.id

/-- The post-dedup tail of the legacy `handleChannelMessage`
(`src/src/Core/AdsFinder.js:263-327`): the dedup set is size-managed and
the key inserted; a forwarded message with a truthy origin channel and
origin message id goes through `checkForwardedMessage`, and a detected
result is persisted (`detections` insert) and notified.  `now` is
`Date.now()`, `dbRows` the result set the placement query would
return. -/
def handleFresh (st : EngineState) (now : Nat) (m : TgMessage)
    (dbRows : List PushRow) : EngineState × List AfEff :=
  let pm := manageProcessedMessagesSize st.processedMessages ++ [messageKeyOf m]
  let st1 := { st with processedMessages := pm, messageCount := st.messageCount + 1 }
  let fromChannelId : Option String :=
    match m.fwdFrom with
    | some f => f.fromId.map cleanChannelId
    | none => none
  let fromMessageId : Option Int :=
    match m.fwdFrom with
    | some f => if jsIntTruthy f.channelPost then f.channelPost else none
    | none => none
  if m.fwdFrom.isSome && jsStrTruthy fromChannelId && jsIntTruthy fromMessageId then
    let fwd : ForwardInfo :=
      { channelId := m.peerChannelId, messageId := m.id, date := m.date,
        views := m.views, forwards := m.forwards,
        fromChannelId := fromChannelId.getD "", fromMessageId := fromMessageId.getD 0 }
    let res := checkForwardedMessage st1.finder now fwd dbRows
    if res.1.detected then
      ({ st1 with finder := res.2.1, detectionsCount := st1.detectionsCount + 1 },
       res.2.2 ++ [AfEff.getChannelInfo, AfEff.dbInsert "detections", AfEff.notify])
    else ({ st1 with finder := res.2.1 }, res.2.2)
  else (st1, [])

/-- Legacy `handleChannelMessage`, guard structure: missing message,
outgoing or non-post messages are dropped; a key already in the dedup
set is dropped; everything else takes the fresh path `handleFresh`. -/
def handleChannelMessage (st : EngineState) (now : Nat) (msg : Option TgMessage)
    (dbRows : List PushRow) : EngineState × List AfEff :=
  match msg with
  | none => (st, [])
  | some m =>
    if m.out || !m.post then (st, [])
    else if st.processedMessages.contains (messageKeyOf m) then (st, [])
    else handleFresh st now m dbRows

/-- A delivered event together with its delivery time and the placement
rows the database would return for it. -/
def EventIn : Type := Nat × Option TgMessage × List PushRow

/-- Run a sequence of events through `handleChannelMessage`,
accumulating the emitted effects. -/
def runEvents (st : EngineState) : List EventIn → EngineState × List AfEff
  | [] => (st, [])
  | (now, m, rows) :: rest =>
      let r1 := handleChannelMessage st now m rows
      let r2 := runEvents r1.1 rest
      (r2.1, r1.2 ++ r2.2)

/-- A "new post" event that carries the dedup key `k`. -/
def sameKeyPostB (k : String) (e : EventIn) : Bool :=
  match e.2.1 with
  | some m2 => messageKeyOf m2 == k && !m2.out && m2.post
  | none => false

/-- A dialog as returned by the Telegram client, collapsed to the id
string that `TelegramManager.getDialogIds` extracts from it (the
BigInt/`id.value`/`entity.id` branches all end in one string, `none`
models a dialog the extraction loop `continue`s over). -/
structure RawDialog where
  idStr : Option String
deriving Repr, DecidableEq

/-- `TelegramManager.getDialogIds` (`src/unnamed/part_005:263-325`): on a
disconnected client return `[]`; a platform failure is caught, logged and
turned into `[]` — this function never throws.  Otherwise collect the
extracted id strings, skipping empty, `"undefined"` and `"null"`. -/
def getDialogIds (connected : Bool) (platformDialogs : Except String (List RawDialog)) :
    List String :=
  if !connected then []
  else
    match platformDialogs with
    | Except.error _ => []
    | Except.ok ds =>
        ds.filterMap (fun d =>
          match d.idStr with
          | some s => if s ≠ "" && s ≠ "undefined" && s ≠ "null" then some s else none
          | none => none)

/-- The dialog-cache slice of the `ViewUpdater` instance state. -/
structure DialogsCache where
  cachedDialogs : List String
  lastDialogsCacheTime : Nat
deriving Repr, DecidableEq

/-- `dialogsCacheTTL = 30 * 60 * 60 * 1000` milliseconds (30 hours). -/
def dialogsCacheTTL : Nat := 30 * 60 * 60 * 1000

/-- `ViewUpdater.getDialogs` (`src/unnamed/part_003:329-358`) with the
awaited refresh call abstracted as `refresh`: when the cache is empty or
expired, an `ok` refresh replaces the cache (empty or not) and stamps the
time; a rejected refresh is caught and the existing cache returned
unchanged ("Return existing cache if refresh fails"). -/
def getDialogs (st : DialogsCache) (now : Nat) (refresh : Except String (List String)) :
    List String × DialogsCache :=
  if st.cachedDialogs.length == 0 || decide (st.lastDialogsCacheTime < now - dialogsCacheTTL) then
    match refresh with
    | Except.ok ids => (ids, ⟨ids, now⟩)
    | Except.error _ => (st.cachedDialogs, st)
  else (st.cachedDialogs, st)

/-- The composition the running system actually executes:
`getDialogs` refreshing through `this.telegram.getDialogIds(1000)`.
Since `getDialogIds` never throws, the refresh outcome handed to
`getDialogs` is always `ok`. -/
def getDialogsViaManager (st : DialogsCache) (now : Nat) (connected : Bool)
    (platformDialogs : Except String (List RawDialog)) : List String × DialogsCache :=
  getDialogs st now (Except.ok (getDialogIds connected platformDialogs))

/-- One row of the reconciliation work query (`performUpdate`,
`src/unnamed/part_003:126-141`). -/
structure VURow where
  mediaIdentifier : String
  username : Option String
  privacy : Option String
  pushId : Int
  campaignName : Option String
deriving Repr, DecidableEq

/-- The latest PLACEMENT detection row for a push (`detections` lookup in
`processRow`). -/
structure DetectionRow where
  postId : Int
deriving Repr, DecidableEq

/-- The `views`/`forwards` snapshot of `messages[0]` (after the
`|| 0` defaulting the source applies). -/
structure Snapshot where
  views : Int
  forwards : Int
deriving Repr, DecidableEq

/-- Errors thrown by the Telegram `getMessages` call, classified the way
`processRow` classifies `error.message`: a message containing
`CHANNEL_PRIVATE`, a message containing `FLOOD_WAIT` (with `seconds` the
first digit run parsed out of it, defaulting to 60), or anything else. -/
inductive TgErr
  | channelPrivate
  | floodWait (seconds : Nat)
  | other (msg : String)
deriving Repr, DecidableEq

/-- The result object `processRow` returns (or the error it rethrows). -/
inductive RowOutcome
  | success (view share : Int)
  | notMember
  | noDetection
  | messageNotFound
  | channelPrivate
  | floodWait
  | thrown (msg : String)
deriving Repr, DecidableEq

/-- Externally visible actions of the reconciliation engine.  `updateRow`
and `deleteRow` exist so that "the engine never updates or deletes" is a
statement about a type that could express those actions. -/
inductive VUEff
  | detectionLookup (pushId : Int)
  | getMessages (channel : String) (postId : Int)
  | insertInsight (pushId view share : Int)
  | sleep (ms : Nat)
  | updateRow (table : String)
  | deleteRow (table : String)
deriving Repr, DecidableEq

/-- One entry of the per-run `notMemberChannels` report map. -/
structure NotMemberInfo where
  id : String
  username : Option String
  pushIds : List Int
  campaignName : Option String
deriving Repr, DecidableEq

/-- Record a not-member channel in the run's report map: first sighting
creates the entry, later sightings push the pushId. -/
def addNotMember (nm : List (String × NotMemberInfo)) (mediaIdentifier : String)
    (row : VURow) : List (String × NotMemberInfo) :=
  match jsMapGet nm mediaIdentifier with
  | none =>
      jsMapSet nm mediaIdentifier
        ⟨mediaIdentifier, row.username, [row.pushId], row.campaignName⟩
  | some info =>
      jsMapSet nm mediaIdentifier { info with pushIds := info.pushIds ++ [row.pushId] }

/-- `ViewUpdater.processRow` (`src/unnamed/part_003:232-327`).
`dialogsSet` is the visible-channel-id set, `detections` the result of
the latest-PLACEMENT-detection query, `platform` the outcome of the
`getMessages` snapshot call (`ok none` = message not found).  Membership
is checked against `"-100" + mediaIdentifier` and the bare identifier
(the source's third format, `String(row.mediaIdentifier)`, coincides with
the second under the string model).  A channel not in the set is recorded
in the report map and short-circuits with no effect; otherwise the
detection lookup runs, then the snapshot call; a `FLOOD_WAIT` failure
sleeps the platform-specified `seconds * 1000` ms and returns a soft
failure; a success inserts exactly one `insightHistories` row. -/
def processRow (row : VURow) (dialogsSet : List String)
    (notMemberChannels : List (String × NotMemberInfo))
    (detections : List DetectionRow) (platform : Except TgErr (Option Snapshot)) :
    RowOutcome × List (String × NotMemberInfo) × List VUEff :=
  let mediaIdentifier := "-100" ++ row.mediaIdentifier
  let isInDialogs :=
    dialogsSet.contains mediaIdentifier || dialogsSet.contains row.mediaIdentifier
  if !isInDialogs then
    (RowOutcome.notMember, addNotMember notMemberChannels mediaIdentifier row, [])
  else
    match detections with
    | [] => (RowOutcome.noDetection, notMemberChannels, [VUEff.detectionLookup row.pushId])
    | det :: _ =>
      match platform with
      | Except.ok (some snap) =>
          (RowOutcome.success snap.views snap.forwards, notMemberChannels,
           [VUEff.detectionLookup row.pushId, VUEff.getMessages mediaIdentifier det.postId,
            VUEff.insertInsight row.pushId snap.views snap.forwards])
      | Except.ok none =>
          (RowOutcome.messageNotFound, notMemberChannels,
           [VUEff.detectionLookup row.pushId, VUEff.getMessages mediaIdentifier det.postId])
      | Except.error TgErr.channelPrivate =>
          (RowOutcome.channelPrivate, notMemberChannels,
           [VUEff.detectionLookup row.pushId, VUEff.getMessages mediaIdentifier det.postId])
      | Except.error (TgErr.floodWait s) =>
          (RowOutcome.floodWait, notMemberChannels,
           [VUEff.detectionLookup row.pushId, VUEff.getMessages mediaIdentifier det.postId,
            VUEff.sleep (s * 1000)])
      | Except.error (TgErr.other msg) =>
          (RowOutcome.thrown msg, notMemberChannels,
           [VUEff.detectionLookup row.pushId, VUEff.getMessages mediaIdentifier det.postId])

/-- One reconciliation item: its work-query row plus the oracle answers
its database lookup and platform snapshot call would produce. -/
structure VUItem where
  row : VURow
  detections : List DetectionRow
  platform : Except TgErr (Option Snapshot)

/-- The item loop of `ViewUpdater.performUpdate`
(`src/unnamed/part_003:163-230`): every item of the result set is handed
to `processRow`; a thrown error is caught per item, so no item failure
stops the loop.  The source groups items into batches of 10 run
concurrently with a 1 s pause between batches; under the single-threaded
event loop this changes timing only, so the embedding processes the items
in order and returns, per item and in order, its outcome and effect
list.  The report map threads through. -/
def performUpdateItems (dialogsSet : List String) (nm : List (String × NotMemberInfo)) :
    List VUItem → List (RowOutcome × List VUEff) × List (String × NotMemberInfo)
  | [] => ([], nm)
  | it :: rest =>
      let r := processRow it.row dialogsSet nm it.detections it.platform
      let rec' := performUpdateItems dialogsSet r.2.1 rest
      ((r.1, r.2.2) :: rec'.1, rec'.2)

/-- Is this effect the append of an `insightHistories` row? -/
def isInsertInsightB : VUEff → Bool
  | VUEff.insertInsight .. => true
  | _ => false

/-- Is this effect a platform message-snapshot call? -/
def isGetMessagesB : VUEff → Bool
  | VUEff.getMessages .. => true
  | _ => false

/-- Is this effect a detections lookup? -/
def isDetectionLookupB : VUEff → Bool
  | VUEff.detectionLookup _ => true
  | _ => false

/-- Is this effect an update or delete of existing rows? -/
def isMutationB : VUEff → Bool
  | VUEff.updateRow _ => true
  | VUEff.deleteRow _ => true
  | _ => false

/-- A persisted `insightHistories` row. -/
structure InsightRow where
  pushId : Int
  viewCount : Int
  share : Int
deriving Repr, DecidableEq

/-- Replay an effect list against the `insightHistories` table:
`insertInsight` appends one row; no other effect touches the table. -/
def applyInsightEffs (tbl : List InsightRow) : List VUEff → List InsightRow
  | [] => tbl
  | VUEff.insertInsight p v s :: rest => applyInsightEffs (tbl ++ [⟨p, v, s⟩]) rest
  | _ :: rest => applyInsightEffs tbl rest

/-- A queued query request: the identity of the caller's pending promise
and the `Date.now()` stamped when it was enqueued. -/
structure QueryItem where
  id : Nat
  timestamp : Nat
deriving Repr, DecidableEq

/-- Oracle outcome of one `executeQuery` attempt: the pool is missing,
the connection checkout loses its 10 s race (`Connection timeout`, whose
error carries no connection-class code, so it is not retried), the
execution throws a connection-class error (retried with backoff), the
execution throws any other error, or it succeeds with a row list. -/
inductive Attempt
  | poolMissing
  | connTimeout
  | execConnError (code : String)
  | execOtherError (msg : String)
  | ok (rows : List Nat)
deriving Repr, DecidableEq

/-- Database-visible actions of the storage gateway. -/
inductive DbEff
  | checkout (id : Nat)
  | execute (id : Nat)
  | release (id : Nat)
  | sleep (ms : Nat)
deriving Repr, DecidableEq

/-- `Database.executeQuery` (`src/unnamed/part_000:191-266`): checkout,
execute, guaranteed release; a connection-class failure with
`retries < maxRetries` sleeps `min(1000 * 2^retries, 10000)` ms and
retries in place.  The attempt list is the oracle for the successive
tries; an exhausted oracle (never reached from a non-empty oracle in the
theorems below) fails. -/
def executeQuery (id : Nat) (maxRetries : Nat) : Nat → List Attempt →
    Except String (List Nat) × List DbEff
  | _, [] => (Except.error "no attempt outcome", [])
  | retries, a :: rest =>
    match a with
    | Attempt.poolMissing => (Except.error "Database pool not initialized", [])
    | Attempt.connTimeout => (Except.error "Connection timeout", [DbEff.checkout id])
    | Attempt.ok rows =>
        (Except.ok rows, [DbEff.checkout id, DbEff.execute id, DbEff.release id])
    | Attempt.execOtherError msg =>
        (Except.error msg, [DbEff.checkout id, DbEff.execute id, DbEff.release id])
    | Attempt.execConnError _ =>
        if retries < maxRetries then
          let delay := min (1000 * 2 ^ retries) 10000
          let r := executeQuery id maxRetries (retries + 1) rest
          (r.1, [DbEff.checkout id, DbEff.execute id, DbEff.release id, DbEff.sleep delay] ++ r.2)
        else (Except.error "connection error", [DbEff.checkout id, DbEff.execute id, DbEff.release id])

/-- The queue staleness threshold of `processQueue`: 30 seconds. -/
def QUEUE_STALE_MS : Nat := 30000

/-- One iteration of the `processQueue` drain loop
(`src/unnamed/part_000:165-185`): the dequeued request is rejected with
`Query timeout in queue` — with no database contact at all — when it has
sat in the queue longer than 30 s at its dequeue time `now`; otherwise it
is handed to `executeQuery` and its promise settled with the result. -/
def processQueueStep (now : Nat) (item : QueryItem) (maxRetries : Nat)
    (attempts : List Attempt) : (Nat × Except String (List Nat)) × List DbEff :=
  if now - item.timestamp > QUEUE_STALE_MS then
    ((item.id, Except.error "Query timeout in queue"), [])
  else
    let r := executeQuery item.id maxRetries 0 attempts
    ((item.id, r.1), r.2)

/-- The full `processQueue` drain: each entry of the trace is one
dequeued request with the `Date.now()` observed at its dequeue and its
attempt oracle.  Every dequeued request is settled exactly once (resolved
or rejected); the 50 ms pacing delay between items touches no database
state and is not recorded. -/
def processQueue (maxRetries : Nat) :
    List (Nat × QueryItem × List Attempt) → List (Nat × Except String (List Nat)) × List DbEff
  | [] => ([], [])
  | (now, it, att) :: rest =>
      let r := processQueueStep now it maxRetries att
      let rr := processQueue maxRetries rest
      (r.1 :: rr.1, r.2 ++ rr.2)

/-- `maxQueueSize = 100`. -/
def maxQueueSize : Nat := 100

/-- The enqueue step of `Database.query` (`src/unnamed/part_000:130-157`):
when the queue already holds `maxQueueSize` pending requests, the oldest
is shifted off — its promise is neither resolved nor rejected — and the
new request is pushed; otherwise the new request is simply pushed.
Returns the new queue and the dropped request, if any. -/
def queryEnqueue (queue : List QueryItem) (req : QueryItem) :
    List QueryItem × Option QueryItem :=
  if queue.length ≥ maxQueueSize then
    (queue.drop 1 ++ [req], queue.head?)
  else (queue ++ [req], none)

/-! ### Helper lemmas -/

/-- `Map.get` skips a head entry whose key differs. -/
theorem jsMapGet_cons_ne {α : Type} (a : String × α) (l : List (String × α)) (k : String)
    (ha : (a.1 == k) = false) : jsMapGet (a :: l) k = jsMapGet l k := by
  simp [jsMapGet, List.find?_cons, ha]

/-- `Map.set` leaves a mismatching head entry in place. -/
theorem jsMapSet_cons_ne {α : Type} (a : String × α) (l : List (String × α)) (k : String)
    (v : α) (ha : (a.1 == k) = false) : jsMapSet (a :: l) k v = a :: jsMapSet l k v := by
  have ha2 : ¬ a.1 = k := by simpa using ha
  by_cases hs : (l.find? (fun kv => kv.1 == k)).isSome = true <;>
    simp [jsMapSet, List.find?_cons, ha, hs, ha2]

/-- After `Map.set`, `Map.get` of the same key yields the stored value. -/
theorem jsMapGet_set_self {α : Type} (m : List (String × α)) (k : String) (v : α) :
    jsMapGet (jsMapSet m k v) k = some v := by
  induction m with
  | nil => simp [jsMapGet, jsMapSet]
  | cons a as ih =>
    by_cases ha : (a.1 == k) = true
    · have ha2 : a.1 = k := by simpa using ha
      have hset : jsMapSet (a :: as) k v =
          (k, v) :: as.map (fun kv => if (kv.1 == k) = true then (k, v) else kv) := by
        simp [jsMapSet, List.find?_cons, ha, ha2]
      rw [hset]
      simp [jsMapGet, List.find?_cons]
    · have hbf : (a.1 == k) = false := by simpa using ha
      rw [jsMapSet_cons_ne a as k v hbf, jsMapGet_cons_ne a _ k hbf]
      exact ih

/-- A key just appended to a list is contained in it. -/
theorem contains_append_self (xs : List String) (k : String) :
    (xs ++ [k]).contains k = true := by
  induction xs with
  | nil => simp
  | cons a as ih => simp_all

/-! ### C1 -/

/-- Incoming forward for the C1 counter-scenario: origin channel `123`,
origin message `205`, observed in channel `777`. -/
def c1Fwd : ForwardInfo :=
  { channelId := "777", messageId := 42, date := 0, views := 0, forwards := 0,
    fromChannelId := "123", fromMessageId := 205 }

/-- Candidate row for the refactored loop: edited ids `[101, 205]`,
edited channel `999`, Content forward-origin channel `888` message `50`,
Content channel `777` message `11`. -/
def c1Row2 : PushRow2 :=
  { pushId := 9, campaignName := some "Camp", channelId := some "777",
    messageId := some 11, forwardFromChannelId := some "888",
    forwardFromMessageId := some 50, editedChannelId := some "999",
    editedMessageIds := some "[101, 205]" }

/-- The same placement as the legacy query would deliver it. -/
def c1Row1 : PushRow :=
  { pushId := 9, notForwardedChannelId := some "777", notForwardedMessageId := some 11,
    baseContentChannelId := some "888", baseContentMessageId := some 50,
    editedContentChannelId := some "999", editedContentMessageIds := some "[101, 205]",
    campaignName := some "Camp" }

/-- The same forward but originating from the edited channel `999`. -/
def c1Fwd205 : ForwardInfo := { c1Fwd with fromChannelId := "999" }

/-- Forward from channel `999` citing the Content's own forward-origin
message id `50` instead of an edited id. -/
def c1Fwd50 : ForwardInfo := { c1Fwd with fromChannelId := "999", fromMessageId := 50 }

/-- C1.  Edited-message precedence in placement matching.  The legacy
loop behaves as claimed: with edited ids `[101, 205]` and edited channel
`999`, a forward from `999` citing `205` matches, one citing the
Content's own forward-origin id `50` does not, and a forward whose
origin channel (`123`) differs from the edited/forward-origin channel
does not match.  The refactored loop, however, matches that last forward
(`rowMatch_v2 c1Fwd c1Row2 = true`): its edited branch tests
`messageIds.includes(fromMessageId)` alone and never compares channel
ids (its `row.editedContentChannelId` read is a column its own query
does not select), so the claimed channel-equality conjunct —
`specRowMatch_v2`, which renders the claim's matching rule and rejects
this forward — is dropped by the refactored code. -/
theorem C1_edited_precedence_channel_check_dropped :
    rowMatch_v2 c1Fwd c1Row2 = true ∧
    specRowMatch_v2 c1Fwd c1Row2 = false ∧
    rowMatch_v1 c1Fwd c1Row1 = false ∧
    rowMatch_v1 c1Fwd205 c1Row1 = true ∧
    rowMatch_v1 c1Fwd50 c1Row1 = false := by
  refine ⟨?_, ?_, ?_, ?_, ?_⟩ <;> decide

/-! ### C3 -/

/-- C3.  Stale-but-available membership cache.  With a non-empty cache
(`["123"]`) past its 30-hour TTL and a platform refresh that fails
(`getDialogs` throwing `FLOOD_WAIT_30`), the composed code path returns
`[]` and overwrites the last-good cache with `[]`:
`TelegramManager.getDialogIds` catches every platform error and returns
`[]`, so `ViewUpdater.getDialogs` sees a successful refresh and replaces
the cache.  The second conjunct shows the stale-but-available branch
`getDialogs` itself implements (comment "Return existing cache if
refresh fails") does keep the old list — but it only fires on a rejected
refresh, which `getDialogIds` never produces, so the intended policy is
unreachable in the running system. -/
theorem C3_failed_refresh_replaces_cache_with_empty :
    getDialogsViaManager ⟨["123"], 0⟩ 108000001 true (Except.error "FLOOD_WAIT_30") =
      ([], ⟨[], 108000001⟩) ∧
    getDialogs ⟨["123"], 0⟩ 108000001 (Except.error "FLOOD_WAIT_30") =
      (["123"], ⟨["123"], 0⟩) :=
  ⟨rfl, rfl⟩

/-! ### C2 -/

/-- A message whose dedup key is already in the set is dropped with no
effect and no state change, whatever its other fields. -/
theorem handleChannelMessage_dup (st : EngineState) (now : Nat) (m : TgMessage)
    (rows : List PushRow)
    (h : st.processedMessages.contains (messageKeyOf m) = true) :
    handleChannelMessage st now (some m) rows = (st, []) := by
  have hmem : messageKeyOf m ∈ st.processedMessages := by simpa using h
  unfold handleChannelMessage
  cases hg : (m.out || !m.post) <;> simp [hg, hmem]

/-- A fresh post's handling inserts its dedup key: in every branch the
resulting dedup set is the size-managed old set with the key appended. -/
theorem handleChannelMessage_fresh_pm (st : EngineState) (now : Nat) (m : TgMessage)
    (rows : List PushRow) (hout : m.out = false) (hpost : m.post = true)
    (h : st.processedMessages.contains (messageKeyOf m) = false) :
    (handleChannelMessage st now (some m) rows).1.processedMessages =
      manageProcessedMessagesSize st.processedMessages ++ [messageKeyOf m] := by
  have hmem : messageKeyOf m ∉ st.processedMessages := by simpa using h
  have hred : handleChannelMessage st now (some m) rows = handleFresh st now m rows := by
    unfold handleChannelMessage
    simp [hout, hpost, hmem]
  rw [hred]
  unfold handleFresh
  simp only []
  repeat first | rfl | split

/-- Events that all carry an already-processed key leave the engine
state untouched and produce no effects. -/
theorem runEvents_dups (k : String) (evs : List EventIn) (st : EngineState)
    (hkey : st.processedMessages.contains k = true)
    (hall : evs.all (sameKeyPostB k) = true) :
    runEvents st evs = (st, []) := by
  induction evs with
  | nil => rfl
  | cons e es ih =>
    obtain ⟨t, om, rws⟩ := e
    simp only [List.all_cons, Bool.and_eq_true] at hall
    obtain ⟨he, hes⟩ := hall
    cases om with
    | none => simp [sameKeyPostB] at he
    | some m2 =>
      simp only [sameKeyPostB, Bool.and_eq_true, beq_iff_eq] at he
      have hk2 : st.processedMessages.contains (messageKeyOf m2) = true := by
        rw [he.1.1]; exact hkey
      have hstep := handleChannelMessage_dup st t m2 rws hk2
      simp [runEvents, hstep, ih hes]

/-- C2.  Idempotent dedup: starting from a state in which the key of the
"new post" message `m` is not yet in the processed-messages set, running
`m` followed by any sequence of further events that all carry the same
dedup key (and pass the new-post guards) is exactly the same — same final
engine state, same emitted effects — as running `m` alone.  All the
duplicates return at the dedup check: they issue no database query, no
detection insert and no notification, and leave the engine state
(dedup set included) unchanged. -/
theorem C2_duplicate_events_run_pipeline_once (st : EngineState) (now : Nat)
    (m : TgMessage) (rows : List PushRow) (rest : List EventIn)
    (hout : m.out = false) (hpost : m.post = true)
    (hfresh : st.processedMessages.contains (messageKeyOf m) = false)
    (hrest : rest.all (sameKeyPostB (messageKeyOf m)) = true) :
    runEvents st ((now, some m, rows) :: rest) = handleChannelMessage st now (some m) rows := by
  have hpm := handleChannelMessage_fresh_pm st now m rows hout hpost hfresh
  have hkey :
      (handleChannelMessage st now (some m) rows).1.processedMessages.contains
        (messageKeyOf m) = true := by
    rw [hpm]; exact contains_append_self _ _
  have hdups := runEvents_dups (messageKeyOf m) rest
    (handleChannelMessage st now (some m) rows).1 hkey hrest
  simp [runEvents, hdups]

/-- Concrete "new post" message used by the C2 witness. -/
def c2Msg : TgMessage :=
  { out := false, post := true, peerChannelId := "7777", id := 31, date := 0,
    views := 5, forwards := 1,
    fwdFrom := some { fromId := some "-1005551", channelPost := some 900 } }

/-- Empty engine state used by witnesses. -/
def emptyEngine : EngineState :=
  { processedMessages := [], messageCount := 0, detectionsCount := 0,
    finder := { queryCache := [], lastCleanupTime := 0 } }

/-- Witness for C2: delivering the same post three times runs the
pipeline exactly once. -/
theorem C2_duplicate_events_run_pipeline_once_w :
    runEvents emptyEngine
        [(10, some c2Msg, []), (11, some c2Msg, []), (12, some c2Msg, [])] =
      handleChannelMessage emptyEngine 10 (some c2Msg) [] :=
  C2_duplicate_events_run_pipeline_once emptyEngine 10 c2Msg [] _
    (by decide) (by decide) (by decide) (by decide)

/-! ### C4 -/

/-- A row whose channel is missing from the dialogs set in every checked
format takes the not-member short circuit. -/
theorem processRow_not_member (row : VURow) (ds : List String)
    (nm : List (String × NotMemberInfo)) (dets : List DetectionRow)
    (pf : Except TgErr (Option Snapshot))
    (h1 : ds.contains ("-100" ++ row.mediaIdentifier) = false)
    (h2 : ds.contains row.mediaIdentifier = false) :
    processRow row ds nm dets pf =
      (RowOutcome.notMember, addNotMember nm ("-100" ++ row.mediaIdentifier) row, []) := by
  have hm1 : ("-100" ++ row.mediaIdentifier) ∉ ds := by simpa using h1
  have hm2 : row.mediaIdentifier ∉ ds := by simpa using h2
  unfold processRow
  simp [hm1, hm2]

/-- The not-member report map always records the channel just added. -/
theorem addNotMember_recorded (nm : List (String × NotMemberInfo)) (k : String) (row : VURow) :
    (jsMapGet (addNotMember nm k row) k).isSome = true := by
  unfold addNotMember
  cases hg : jsMapGet nm k <;> simp [jsMapGet_set_self]

/-- C4.  Not-member short-circuit: when the reconciliation row's channel
id is absent from the visible-channel-id set in each checked format
(`-100`-prefixed and bare), `processRow` returns the not-member outcome,
records the channel in the run's not-member report map, and emits no
effect at all — in particular no platform `getMessages` snapshot call
and no detections lookup. -/
theorem C4_not_member_short_circuit (row : VURow) (ds : List String)
    (nm : List (String × NotMemberInfo)) (dets : List DetectionRow)
    (pf : Except TgErr (Option Snapshot))
    (h1 : ds.contains ("-100" ++ row.mediaIdentifier) = false)
    (h2 : ds.contains row.mediaIdentifier = false) :
    (processRow row ds nm dets pf).1 = RowOutcome.notMember ∧
    (processRow row ds nm dets pf).2.2 = [] ∧
    ((processRow row ds nm dets pf).2.2.all
      (fun e => !isGetMessagesB e && !isDetectionLookupB e)) = true ∧
    (jsMapGet (processRow row ds nm dets pf).2.1 ("-100" ++ row.mediaIdentifier)).isSome
      = true := by
  have hrow := processRow_not_member row ds nm dets pf h1 h2
  refine ⟨by rw [hrow], by rw [hrow], by rw [hrow]; rfl, ?_⟩
  rw [hrow]
  exact addNotMember_recorded nm _ row

/-- Concrete reconciliation row for the C4/C5/C6 witnesses. -/
def c4Row : VURow :=
  { mediaIdentifier := "5551", username := some "chan", privacy := some "PUBLIC",
    pushId := 7, campaignName := some "Camp" }

/-- Witness for C4: channel `5551` absent from the dialogs set
`["-100999"]` short-circuits. -/
theorem C4_not_member_short_circuit_w :
    (processRow c4Row ["-100999"] [] [] (Except.ok none)).1 = RowOutcome.notMember ∧
    (processRow c4Row ["-100999"] [] [] (Except.ok none)).2.2 = [] ∧
    ((processRow c4Row ["-100999"] [] [] (Except.ok none)).2.2.all
      (fun e => !isGetMessagesB e && !isDetectionLookupB e)) = true ∧
    (jsMapGet (processRow c4Row ["-100999"] [] [] (Except.ok none)).2.1
      ("-100" ++ c4Row.mediaIdentifier)).isSome = true :=
  C4_not_member_short_circuit c4Row ["-100999"] [] [] (Except.ok none)
    (by decide) (by decide)

/-! ### C5 -/

/-- The per-item results of a split work list are the results of the two
halves, with the report map threaded through. -/
theorem performUpdateItems_append (ds : List String) (nm : List (String × NotMemberInfo))
    (xs ys : List VUItem) :
    performUpdateItems ds nm (xs ++ ys) =
      ((performUpdateItems ds nm xs).1 ++
         (performUpdateItems ds (performUpdateItems ds nm xs).2 ys).1,
       (performUpdateItems ds (performUpdateItems ds nm xs).2 ys).2) := by
  induction xs generalizing nm with
  | nil => simp [performUpdateItems]
  | cons x xs ih => simp [performUpdateItems, ih]

/-- Every item of the work list yields exactly one per-item result. -/
theorem performUpdateItems_length (ds : List String) (nm : List (String × NotMemberInfo))
    (items : List VUItem) :
    (performUpdateItems ds nm items).1.length = items.length := by
  induction items generalizing nm with
  | nil => rfl
  | cons x xs ih => simp [performUpdateItems, ih]

/-- A member channel with a found detection whose snapshot call fails
with a flood wait of `s` seconds: the item sleeps `s * 1000` ms and
comes back as a soft failure, touching no table. -/
theorem processRow_flood (row : VURow) (ds : List String)
    (nm : List (String × NotMemberInfo)) (det : DetectionRow) (dets2 : List DetectionRow)
    (s : Nat)
    (hin : (ds.contains ("-100" ++ row.mediaIdentifier) ||
            ds.contains row.mediaIdentifier) = true) :
    processRow row ds nm (det :: dets2) (Except.error (TgErr.floodWait s)) =
      (RowOutcome.floodWait, nm,
       [VUEff.detectionLookup row.pushId,
        VUEff.getMessages ("-100" ++ row.mediaIdentifier) det.postId,
        VUEff.sleep (s * 1000)]) := by
  have hin2 : ("-100" ++ row.mediaIdentifier) ∈ ds ∨ row.mediaIdentifier ∈ ds := by
    simpa using hin
  unfold processRow
  simp [hin]
  intro h
  rcases hin2 with h1 | h1
  · exact absurd h1 h
  · exact h1

/-- C5.  Flood-wait soft failure: in a run whose work list contains,
anywhere in the middle, an item (member channel, detection on record)
whose snapshot call fails with a flood wait of `s` seconds, the run
still produces one result per item (items after the flooded one are all
processed in the same run), the flooded item's result is the soft
failure `floodWait` — not success, so not counted as updated — its
effect list contains the sleep of exactly `s * 1000` ms (at least the
platform-specified duration) and contains no `insightHistories`
insert. -/
theorem C5_flood_wait_soft_failure (ds : List String) (nm : List (String × NotMemberInfo))
    (pre post : List VUItem) (row : VURow) (det : DetectionRow) (dets2 : List DetectionRow)
    (s : Nat)
    (hin : (ds.contains ("-100" ++ row.mediaIdentifier) ||
            ds.contains row.mediaIdentifier) = true) :
    (performUpdateItems ds nm
        (pre ++ ⟨row, det :: dets2, Except.error (TgErr.floodWait s)⟩ :: post)).1.length =
      pre.length + 1 + post.length ∧
    (performUpdateItems ds nm
        (pre ++ ⟨row, det :: dets2, Except.error (TgErr.floodWait s)⟩ :: post)).1[pre.length]? =
      some (RowOutcome.floodWait,
        [VUEff.detectionLookup row.pushId,
         VUEff.getMessages ("-100" ++ row.mediaIdentifier) det.postId,
         VUEff.sleep (s * 1000)]) ∧
    VUEff.sleep (s * 1000) ∈
      [VUEff.detectionLookup row.pushId,
       VUEff.getMessages ("-100" ++ row.mediaIdentifier) det.postId,
       VUEff.sleep (s * 1000)] ∧
    ([VUEff.detectionLookup row.pushId,
      VUEff.getMessages ("-100" ++ row.mediaIdentifier) det.postId,
      VUEff.sleep (s * 1000)].all (fun e => !isInsertInsightB e)) = true := by
  have hsplit := performUpdateItems_append ds nm pre
    (⟨row, det :: dets2, Except.error (TgErr.floodWait s)⟩ :: post)
  have hlenpre := performUpdateItems_length ds nm pre
  have hstep : performUpdateItems ds (performUpdateItems ds nm pre).2
      (⟨row, det :: dets2, Except.error (TgErr.floodWait s)⟩ :: post) =
      ((RowOutcome.floodWait,
        [VUEff.detectionLookup row.pushId,
         VUEff.getMessages ("-100" ++ row.mediaIdentifier) det.postId,
         VUEff.sleep (s * 1000)]) ::
         (performUpdateItems ds (performUpdateItems ds nm pre).2 post).1,
       (performUpdateItems ds (performUpdateItems ds nm pre).2 post).2) := by
    have hp := processRow_flood row ds (performUpdateItems ds nm pre).2 det dets2 s hin
    simp [performUpdateItems, hp]
  refine ⟨?_, ?_, by simp, by rfl⟩
  · rw [hsplit]
    simp [hstep, hlenpre, performUpdateItems_length]
    omega
  · rw [hsplit]
    simp only [hstep]
    rw [List.getElem?_append_right (by omega)]
    simp [hlenpre]

/-- Witness for C5: a two-second flood wait on the only item of a run. -/
theorem C5_flood_wait_soft_failure_w :
    (performUpdateItems ["-1005551"] []
        ([] ++ ⟨c4Row, ⟨900⟩ :: [], Except.error (TgErr.floodWait 2)⟩ :: [])).1.length =
      List.length ([] : List VUItem) + 1 + List.length ([] : List VUItem) ∧
    (performUpdateItems ["-1005551"] []
        ([] ++ ⟨c4Row, ⟨900⟩ :: [], Except.error (TgErr.floodWait 2)⟩ :: [])).1[(0 : Nat)]? =
      some (RowOutcome.floodWait,
        [VUEff.detectionLookup c4Row.pushId,
         VUEff.getMessages ("-100" ++ c4Row.mediaIdentifier) (900 : Int),
         VUEff.sleep (2 * 1000)]) ∧
    VUEff.sleep (2 * 1000) ∈
      [VUEff.detectionLookup c4Row.pushId,
       VUEff.getMessages ("-100" ++ c4Row.mediaIdentifier) (900 : Int),
       VUEff.sleep (2 * 1000)] ∧
    ([VUEff.detectionLookup c4Row.pushId,
      VUEff.getMessages ("-100" ++ c4Row.mediaIdentifier) (900 : Int),
      VUEff.sleep (2 * 1000)].all (fun e => !isInsertInsightB e)) = true :=
  C5_flood_wait_soft_failure ["-1005551"] [] [] [] c4Row ⟨900⟩ [] 2 (by decide)

/-! ### C6 -/

/-- Reduction of `processRow` for a member channel: the detection lookup
runs, then the snapshot branch decides the outcome. -/
theorem processRow_member (row : VURow) (ds : List String)
    (nm : List (String × NotMemberInfo)) (dets : List DetectionRow)
    (pf : Except TgErr (Option Snapshot))
    (hin : (ds.contains ("-100" ++ row.mediaIdentifier) ||
            ds.contains row.mediaIdentifier) = true) :
    processRow row ds nm dets pf =
      (match dets with
       | [] => (RowOutcome.noDetection, nm, [VUEff.detectionLookup row.pushId])
       | det :: _ =>
         match pf with
         | Except.ok (some snap) =>
             (RowOutcome.success snap.views snap.forwards, nm,
              [VUEff.detectionLookup row.pushId,
               VUEff.getMessages ("-100" ++ row.mediaIdentifier) det.postId,
               VUEff.insertInsight row.pushId snap.views snap.forwards])
         | Except.ok none =>
             (RowOutcome.messageNotFound, nm,
              [VUEff.detectionLookup row.pushId,
               VUEff.getMessages ("-100" ++ row.mediaIdentifier) det.postId])
         | Except.error TgErr.channelPrivate =>
             (RowOutcome.channelPrivate, nm,
              [VUEff.detectionLookup row.pushId,
               VUEff.getMessages ("-100" ++ row.mediaIdentifier) det.postId])
         | Except.error (TgErr.floodWait s) =>
             (RowOutcome.floodWait, nm,
              [VUEff.detectionLookup row.pushId,
               VUEff.getMessages ("-100" ++ row.mediaIdentifier) det.postId,
               VUEff.sleep (s * 1000)])
         | Except.error (TgErr.other msg) =>
             (RowOutcome.thrown msg, nm,
              [VUEff.detectionLookup row.pushId,
               VUEff.getMessages ("-100" ++ row.mediaIdentifier) det.postId])) := by
  unfold processRow
  simp only []
  rw [hin]
  rfl

/-- A successful `processRow` has exactly the lookup/snapshot/insert
effect list. -/
theorem processRow_success_effs (row : VURow) (ds : List String)
    (nm : List (String × NotMemberInfo)) (dets : List DetectionRow)
    (pf : Except TgErr (Option Snapshot)) (v s : Int)
    (h : (processRow row ds nm dets pf).1 = RowOutcome.success v s) :
    ∃ pid, (processRow row ds nm dets pf).2.2 =
      [VUEff.detectionLookup row.pushId,
       VUEff.getMessages ("-100" ++ row.mediaIdentifier) pid,
       VUEff.insertInsight row.pushId v s] := by
  by_cases hin : (ds.contains ("-100" ++ row.mediaIdentifier) ||
      ds.contains row.mediaIdentifier) = true
  · rw [processRow_member row ds nm dets pf hin] at h ⊢
    cases dets with
    | nil => simp at h
    | cons det d2 =>
      cases pf with
      | ok osnap =>
        cases osnap with
        | some snap =>
          simp at h
          exact ⟨det.postId, by simp [h.1, h.2]⟩
        | none => simp at h
      | error e => cases e <;> simp at h
  · have hb1 : ds.contains ("-100" ++ row.mediaIdentifier) = false := by
      cases hx : ds.contains ("-100" ++ row.mediaIdentifier) with
      | false => rfl
      | true => exact absurd (by rw [hx]; rfl) hin
    have hb2 : ds.contains row.mediaIdentifier = false := by
      cases hx : ds.contains row.mediaIdentifier with
      | false => rfl
      | true => exact absurd (by rw [hx, Bool.or_true]) hin
    rw [processRow_not_member row ds nm dets pf hb1 hb2] at h
    simp at h

/-- `processRow` never emits an update or delete effect. -/
theorem processRow_no_mutation (row : VURow) (ds : List String)
    (nm : List (String × NotMemberInfo)) (dets : List DetectionRow)
    (pf : Except TgErr (Option Snapshot)) :
    ((processRow row ds nm dets pf).2.2.all (fun e => !isMutationB e)) = true := by
  unfold processRow
  simp only []
  repeat first | rfl | split

/-- The whole reconciliation item loop never emits an update or delete
effect. -/
theorem performUpdateItems_no_mutation (ds : List String)
    (nm : List (String × NotMemberInfo)) (items : List VUItem) :
    ((performUpdateItems ds nm items).1.all
      (fun oe => oe.2.all (fun e => !isMutationB e))) = true := by
  induction items generalizing nm with
  | nil => rfl
  | cons x xs ih =>
    simp only [performUpdateItems, List.all_cons, Bool.and_eq_true]
    exact ⟨processRow_no_mutation x.row ds nm x.detections x.platform, ih _⟩

/-- C6.  Append-only insight history: (1) every successful
reconciliation of an item emits exactly one `insightHistories` insert;
(2) the item loop, over any work list, never emits an update or a delete
against existing rows; (3) hence replaying two successful
reconciliations of the same Placement onto the `insightHistories` table
appends two rows — the table grows by exactly two, never by one updated
row. -/
theorem C6_append_only_insight_history :
    (∀ (row : VURow) (ds : List String) (nm : List (String × NotMemberInfo))
       (dets : List DetectionRow) (pf : Except TgErr (Option Snapshot)) (v s : Int),
       (processRow row ds nm dets pf).1 = RowOutcome.success v s →
       ((processRow row ds nm dets pf).2.2.countP isInsertInsightB) = 1) ∧
    (∀ (ds : List String) (nm : List (String × NotMemberInfo)) (items : List VUItem),
       ((performUpdateItems ds nm items).1.all
         (fun oe => oe.2.all (fun e => !isMutationB e))) = true) ∧
    (∀ (tbl : List InsightRow) (row1 : VURow) (ds1 : List String)
       (nm1 : List (String × NotMemberInfo)) (dets1 : List DetectionRow)
       (pf1 : Except TgErr (Option Snapshot)) (v1 s1 : Int)
       (row2 : VURow) (ds2 : List String) (nm2 : List (String × NotMemberInfo))
       (dets2 : List DetectionRow) (pf2 : Except TgErr (Option Snapshot)) (v2 s2 : Int),
       (processRow row1 ds1 nm1 dets1 pf1).1 = RowOutcome.success v1 s1 →
       (processRow row2 ds2 nm2 dets2 pf2).1 = RowOutcome.success v2 s2 →
       (applyInsightEffs (applyInsightEffs tbl (processRow row1 ds1 nm1 dets1 pf1).2.2)
          (processRow row2 ds2 nm2 dets2 pf2).2.2).length = tbl.length + 2) := by
  refine ⟨?_, performUpdateItems_no_mutation, ?_⟩
  · intro row ds nm dets pf v s h
    obtain ⟨pid, he⟩ := processRow_success_effs row ds nm dets pf v s h
    rw [he]
    rfl
  · intro tbl row1 ds1 nm1 dets1 pf1 v1 s1 row2 ds2 nm2 dets2 pf2 v2 s2 h1 h2
    obtain ⟨pid1, he1⟩ := processRow_success_effs row1 ds1 nm1 dets1 pf1 v1 s1 h1
    obtain ⟨pid2, he2⟩ := processRow_success_effs row2 ds2 nm2 dets2 pf2 v2 s2 h2
    rw [he1, he2]
    simp [applyInsightEffs]

/-- Witness for C6: a concrete successful reconciliation, replayed twice
onto an empty table, leaves exactly two rows. -/
theorem C6_append_only_insight_history_w :
    ((processRow c4Row ["-1005551"] [] [⟨900⟩] (Except.ok (some ⟨44, 3⟩))).2.2.countP
      isInsertInsightB) = 1 ∧
    ((performUpdateItems ["-1005551"] []
        [⟨c4Row, [⟨900⟩], Except.ok (some ⟨44, 3⟩)⟩]).1.all
      (fun oe => oe.2.all (fun e => !isMutationB e))) = true ∧
    (applyInsightEffs
      (applyInsightEffs []
        (processRow c4Row ["-1005551"] [] [⟨900⟩] (Except.ok (some ⟨44, 3⟩))).2.2)
      (processRow c4Row ["-1005551"] [] [⟨900⟩] (Except.ok (some ⟨44, 3⟩))).2.2).length =
      List.length ([] : List InsightRow) + 2 :=
  ⟨C6_append_only_insight_history.1 c4Row ["-1005551"] [] [⟨900⟩]
      (Except.ok (some ⟨44, 3⟩)) 44 3 (by decide),
   C6_append_only_insight_history.2.1 ["-1005551"] []
      [⟨c4Row, [⟨900⟩], Except.ok (some ⟨44, 3⟩)⟩],
   C6_append_only_insight_history.2.2 [] c4Row ["-1005551"] [] [⟨900⟩]
      (Except.ok (some ⟨44, 3⟩)) 44 3 c4Row ["-1005551"] [] [⟨900⟩]
      (Except.ok (some ⟨44, 3⟩)) 44 3 (by decide) (by decide)⟩

/-! ### C7 -/

/-- C7.  Negative-match caching: a first lookup (key not in the cache)
for which the placement query returns no matching candidate row yields
`detected:false`, issues exactly one database query, and stores the
negative result in the cache under the key stamped with the lookup time;
any later lookup of the same key within the TTL returns the cached
`detected:false` with no effect at all — no database query — and leaves
the state unchanged, whatever rows the database would have returned. -/
theorem C7_negative_match_cached (st : FinderState) (t1 : Nat) (fwd : ForwardInfo)
    (rows : List PushRow)
    (hfirst : jsMapGet st.queryCache (cacheKeyOf fwd) = none)
    (hzero : rows.all (fun r => !rowMatch_v1 fwd r) = true) :
    (checkForwardedMessage st t1 fwd rows).1 = { detected := false } ∧
    (checkForwardedMessage st t1 fwd rows).2.2 = [AfEff.dbQuery] ∧
    jsMapGet (checkForwardedMessage st t1 fwd rows).2.1.queryCache (cacheKeyOf fwd) =
      some ⟨false, none, none, t1⟩ ∧
    (∀ t2 rows2, t2 - t1 < CACHE_TTL →
      checkForwardedMessage (checkForwardedMessage st t1 fwd rows).2.1 t2 fwd rows2 =
        ({ detected := false }, (checkForwardedMessage st t1 fwd rows).2.1, [])) := by
  have hfind : rows.find? (rowMatch_v1 fwd) = none := by
    rw [List.find?_eq_none]
    intro x hx
    have hx2 := List.all_eq_true.mp hzero x hx
    simp only [Bool.not_eq_true'] at hx2
    simp [hx2]
  have hcall : checkForwardedMessage st t1 fwd rows =
      ({ detected := false },
       { queryCache := jsMapSet (cleanCacheIfNeeded st t1).queryCache (cacheKeyOf fwd)
            ⟨false, none, none, t1⟩,
         lastCleanupTime := (cleanCacheIfNeeded st t1).lastCleanupTime },
       [AfEff.dbQuery]) := by
    unfold checkForwardedMessage
    rw [hfirst]
    unfold checkMiss
    simp only []
    rw [hfind]
  have hget : jsMapGet (checkForwardedMessage st t1 fwd rows).2.1.queryCache
      (cacheKeyOf fwd) = some ⟨false, none, none, t1⟩ := by
    rw [hcall]
    exact jsMapGet_set_self _ _ _
  refine ⟨by rw [hcall], by rw [hcall], hget, ?_⟩
  intro t2 rows2 htl
  rw [hcall]
  unfold checkForwardedMessage
  rw [show jsMapGet (jsMapSet (cleanCacheIfNeeded st t1).queryCache (cacheKeyOf fwd)
        ⟨false, none, none, t1⟩) (cacheKeyOf fwd) =
      some ⟨false, none, none, t1⟩ from jsMapGet_set_self _ _ _]
  simp [htl]

/-- Forward key used by the C7 witness. -/
def c7Fwd : ForwardInfo :=
  { channelId := "7777", messageId := 31, date := 0, views := 0, forwards := 0,
    fromChannelId := "5551", fromMessageId := 900 }

/-- A candidate row that does not match `c7Fwd` (different origin
channel), for the second C7 lookup. -/
def c7Row : PushRow :=
  { pushId := 3, notForwardedChannelId := some "1", notForwardedMessageId := some 2,
    baseContentChannelId := some "3", baseContentMessageId := some 4,
    editedContentChannelId := none, editedContentMessageIds := none,
    campaignName := none }

/-- Witness for C7: first lookup at `t=5` caches the negative result;
second lookup at `t=10` is answered from the cache with no query. -/
theorem C7_negative_match_cached_w :
    (checkForwardedMessage ⟨[], 0⟩ 5 c7Fwd []).1 = { detected := false } ∧
    (checkForwardedMessage ⟨[], 0⟩ 5 c7Fwd []).2.2 = [AfEff.dbQuery] ∧
    jsMapGet (checkForwardedMessage ⟨[], 0⟩ 5 c7Fwd []).2.1.queryCache (cacheKeyOf c7Fwd) =
      some ⟨false, none, none, 5⟩ ∧
    checkForwardedMessage (checkForwardedMessage ⟨[], 0⟩ 5 c7Fwd []).2.1 10 c7Fwd [c7Row] =
      ({ detected := false }, (checkForwardedMessage ⟨[], 0⟩ 5 c7Fwd []).2.1, []) := by
  have h := C7_negative_match_cached ⟨[], 0⟩ 5 c7Fwd [] (by decide) (by decide)
  exact ⟨h.1, h.2.1, h.2.2.1, h.2.2.2 10 [c7Row] (by decide)⟩

/-! ### C8 -/

/-- Draining a split trace settles the two halves in order and
concatenates their database effects. -/
theorem processQueue_append (mr : Nat) (xs ys : List (Nat × QueryItem × List Attempt)) :
    processQueue mr (xs ++ ys) =
      ((processQueue mr xs).1 ++ (processQueue mr ys).1,
       (processQueue mr xs).2 ++ (processQueue mr ys).2) := by
  induction xs with
  | nil => simp [processQueue]
  | cons x xs ih =>
    obtain ⟨n, it, att⟩ := x
    simp [processQueue, ih]

/-- C8.  Queue staleness timeout: a request dequeued after sitting in
the queue longer than the 30 s threshold is rejected with the
`Query timeout in queue` error and contributes no database effect at all
— no connection checkout and no execution; the rest of the queue before
and after it is settled exactly as if the stale entry were absent.  A
request dequeued within the threshold is executed: with a clean first
attempt it checks out a connection, executes, releases, and resolves
with the rows. -/
theorem C8_queue_staleness_timeout (mr : Nat)
    (pre post : List (Nat × QueryItem × List Attempt))
    (now : Nat) (it : QueryItem) (att : List Attempt)
    (hstale : now - it.timestamp > QUEUE_STALE_MS) :
    (processQueue mr (pre ++ (now, it, att) :: post)).1 =
      (processQueue mr pre).1 ++
        (it.id, Except.error "Query timeout in queue") :: (processQueue mr post).1 ∧
    (processQueue mr (pre ++ (now, it, att) :: post)).2 =
      (processQueue mr pre).2 ++ (processQueue mr post).2 ∧
    (∀ (now2 : Nat) (it2 : QueryItem) (rows : List Nat),
      now2 - it2.timestamp ≤ QUEUE_STALE_MS →
      processQueueStep now2 it2 mr [Attempt.ok rows] =
        ((it2.id, Except.ok rows),
         [DbEff.checkout it2.id, DbEff.execute it2.id, DbEff.release it2.id])) := by
  have hstep : processQueueStep now it mr att =
      ((it.id, Except.error "Query timeout in queue"), []) := by
    unfold processQueueStep
    rw [if_pos hstale]
  have happ := processQueue_append mr pre ((now, it, att) :: post)
  refine ⟨?_, ?_, ?_⟩
  · rw [happ]; simp [processQueue, hstep]
  · rw [happ]; simp [processQueue, hstep]
  · intro now2 it2 rows hfresh
    unfold processQueueStep
    rw [if_neg (by omega)]
    rfl

/-- Witness for C8: a request that waited 40 s is rejected without
touching the database; a request that waited 1 s executes. -/
theorem C8_queue_staleness_timeout_w :
    (processQueue 3 ([] ++ (40000, ⟨1, 0⟩, [Attempt.ok [7]]) :: [])).1 =
      (processQueue 3 []).1 ++
        ((1 : Nat), Except.error "Query timeout in queue") :: (processQueue 3 []).1 ∧
    (processQueue 3 ([] ++ (40000, ⟨1, 0⟩, [Attempt.ok [7]]) :: [])).2 =
      (processQueue 3 []).2 ++ (processQueue 3 []).2 ∧
    processQueueStep 1000 ⟨2, 0⟩ 3 [Attempt.ok [7]] =
      (((2 : Nat), Except.ok [7]),
       [DbEff.checkout 2, DbEff.execute 2, DbEff.release 2]) := by
  have h := C8_queue_staleness_timeout 3 [] [] 40000 ⟨1, 0⟩ [Attempt.ok [7]] (by decide)
  exact ⟨h.1, h.2.1, h.2.2 1000 ⟨2, 0⟩ [7] (by decide)⟩

/-! ### C9 -/

/-- C9.  Malformed edited-message data tolerance: a candidate row whose
edited-message field is present (truthy) but does not parse as a JSON
integer array never matches; the candidate loop behaves on
`row :: rest` exactly as on `rest` alone — the parse failure is
swallowed inside the loop, never surfaces to the caller of
`checkForwardedMessage`, and a later well-formed row still gets its
chance to match. -/
theorem C9_malformed_edited_ids_tolerated (fwd : ForwardInfo) (row : PushRow)
    (rest : List PushRow)
    (hpresent : jsStrTruthy row.editedContentMessageIds = true)
    (hmal : jsonParseIntList (row.editedContentMessageIds.getD "") = none) :
    rowMatch_v1 fwd row = false ∧
    (row :: rest).find? (rowMatch_v1 fwd) = rest.find? (rowMatch_v1 fwd) ∧
    (∀ (st : FinderState) (now : Nat),
      checkForwardedMessage st now fwd (row :: rest) =
        checkForwardedMessage st now fwd rest) := by
  have hrm : rowMatch_v1 fwd row = false := by
    unfold rowMatch_v1
    simp only []
    rw [hpresent, hmal]
    rfl
  have hfind : (row :: rest).find? (rowMatch_v1 fwd) = rest.find? (rowMatch_v1 fwd) := by
    simp [List.find?_cons, hrm]
  refine ⟨hrm, hfind, ?_⟩
  intro st now
  have hmiss : checkMiss st now fwd (row :: rest) = checkMiss st now fwd rest := by
    unfold checkMiss
    simp only []
    rw [hfind]
  unfold checkForwardedMessage
  cases hc : jsMapGet st.queryCache (cacheKeyOf fwd) with
  | some e =>
    by_cases ht : now - e.time < CACHE_TTL
    · simp [ht]
    · simp [ht, hmiss]
  | none => simp [hmiss]

/-- Forward used by the C9 witness: origin channel `999`, message 205. -/
def c9Fwd : ForwardInfo :=
  { channelId := "777", messageId := 42, date := 0, views := 0, forwards := 0,
    fromChannelId := "999", fromMessageId := 205 }

/-- A row whose edited-message field holds unparseable text. -/
def c9BadRow : PushRow :=
  { pushId := 1, notForwardedChannelId := some "999", notForwardedMessageId := some 205,
    baseContentChannelId := none, baseContentMessageId := none,
    editedContentChannelId := none, editedContentMessageIds := some "oops-not-json",
    campaignName := some "Camp" }

/-- A well-formed row, after the malformed one, that matches `c9Fwd`. -/
def c9GoodRow : PushRow :=
  { pushId := 2, notForwardedChannelId := some "999", notForwardedMessageId := some 205,
    baseContentChannelId := none, baseContentMessageId := none,
    editedContentChannelId := none, editedContentMessageIds := none,
    campaignName := some "Camp" }

/-- Witness for C9: the malformed row is skipped, and the later
well-formed row still produces the match. -/
theorem C9_malformed_edited_ids_tolerated_w :
    (rowMatch_v1 c9Fwd c9BadRow = false ∧
     (c9BadRow :: [c9GoodRow]).find? (rowMatch_v1 c9Fwd) =
       [c9GoodRow].find? (rowMatch_v1 c9Fwd) ∧
     checkForwardedMessage ⟨[], 0⟩ 5 c9Fwd (c9BadRow :: [c9GoodRow]) =
       checkForwardedMessage ⟨[], 0⟩ 5 c9Fwd [c9GoodRow]) ∧
    [c9GoodRow].find? (rowMatch_v1 c9Fwd) = some c9GoodRow := by
  have h := C9_malformed_edited_ids_tolerated c9Fwd c9BadRow [c9GoodRow]
    (by decide) (by decide)
  exact ⟨⟨h.1, h.2.1, h.2.2 ⟨[], 0⟩ 5⟩, by decide⟩

/-! ### C10 -/

/-- Every dequeue settles the promise of the item it dequeued. -/
theorem processQueueStep_id (now : Nat) (it : QueryItem) (mr : Nat) (att : List Attempt) :
    (processQueueStep now it mr att).1.1 = it.id := by
  unfold processQueueStep
  split <;> rfl

/-- Draining a trace settles exactly the promises of the queued items,
in order. -/
theorem processQueue_ids (mr : Nat) (trace : List (Nat × QueryItem × List Attempt)) :
    (processQueue mr trace).1.map Prod.fst = trace.map (fun t => t.2.1.id) := by
  induction trace with
  | nil => rfl
  | cons x xs ih =>
    obtain ⟨n, it, att⟩ := x
    simp [processQueue, ih, processQueueStep_id]

/-- C10.  When `query()` is called while the work queue already holds
its maximum of 100 pending requests, the oldest request is removed and
the new one pushed.  Any subsequent drain of the resulting queue settles
(resolves or rejects) exactly the remaining 99 requests and the new one:
the dropped request's promise is settled by nothing — it appears in no
settlement list — while the newly enqueued request and every other
queued request is settled. -/
theorem C10_full_queue_drops_oldest_unsettled (old : QueryItem) (rest : List QueryItem)
    (req : QueryItem)
    (hfull : (old :: rest).length = maxQueueSize)
    (hnodup : (((old :: rest) ++ [req]).map QueryItem.id).Nodup) :
    queryEnqueue (old :: rest) req = (rest ++ [req], some old) ∧
    (∀ (mr : Nat) (trace : List (Nat × QueryItem × List Attempt)),
      trace.map (fun t => t.2.1) = rest ++ [req] →
      ((processQueue mr trace).1.map Prod.fst = (rest ++ [req]).map QueryItem.id ∧
       old.id ∉ (processQueue mr trace).1.map Prod.fst ∧
       req.id ∈ (processQueue mr trace).1.map Prod.fst)) := by
  constructor
  · unfold queryEnqueue
    rw [if_pos (ge_of_eq hfull)]
    rfl
  · intro mr trace htr
    have hids : (processQueue mr trace).1.map Prod.fst = (rest ++ [req]).map QueryItem.id := by
      rw [processQueue_ids]
      have : trace.map (fun t => t.2.1.id) = (trace.map (fun t => t.2.1)).map QueryItem.id := by
        rw [List.map_map]
        rfl
      rw [this, htr]
    refine ⟨hids, ?_, ?_⟩
    · rw [hids]
      have hn : old.id ∉ ((rest ++ [req]).map QueryItem.id) := by
        have h2 : (old.id :: (rest ++ [req]).map QueryItem.id).Nodup := by
          simpa using hnodup
        exact (List.nodup_cons.mp h2).1
      exact hn
    · rw [hids]
      exact List.mem_map_of_mem QueryItem.id (by simp)

/-- The oldest pending request of the C10 witness queue. -/
def c10Old : QueryItem := ⟨0, 0⟩

/-- The 99 younger pending requests of the C10 witness queue. -/
def c10Rest : List QueryItem := (List.range 99).map (fun i => ⟨i + 1, 0⟩)

/-- The new request that arrives while the queue is full. -/
def c10Req : QueryItem := ⟨100, 0⟩

/-- A drain trace for the queue after the drop: every entry dequeued at
time 0 with a clean first attempt. -/
def c10Trace : List (Nat × QueryItem × List Attempt) :=
  (c10Rest ++ [c10Req]).map (fun q => (0, q, [Attempt.ok []]))

/-- Witness for C10: on the concrete full queue `0..99`, enqueueing
request `100` drops request `0`, whose id is settled by no drain, while
ids `1..100` are all settled. -/
theorem C10_full_queue_drops_oldest_unsettled_w :
    queryEnqueue (c10Old :: c10Rest) c10Req = (c10Rest ++ [c10Req], some c10Old) ∧
    ((processQueue 3 c10Trace).1.map Prod.fst = (c10Rest ++ [c10Req]).map QueryItem.id ∧
     c10Old.id ∉ (processQueue 3 c10Trace).1.map Prod.fst ∧
     c10Req.id ∈ (processQueue 3 c10Trace).1.map Prod.fst) := by
  have h := C10_full_queue_drops_oldest_unsettled c10Old c10Rest c10Req
    (by decide) (by decide)
  exact ⟨h.1, h.2 3 c10Trace (by decide)⟩
